import Mathlib

/-!
Verification of the market-maker decision core (`contracts/maker/src/contract.rs`)
against its natural-language specification.

The contract computes with `cosmwasm_std::Decimal256`, an unsigned fixed-point
number: a value is `atomics / 10^18` where `atomics : Uint256`.  We embed a
decimal as its atomics, a natural number.  Multiplication and division truncate
toward zero exactly as `Decimal256`'s `Mul`/`Div` (which go through
`multiply_ratio`, i.e. floor division); subtraction panics on underflow in
Rust, which we model by an `Option` result (`none` = panic/abort of the whole
invocation).  The 2^256 overflow bound is not modelled: overflow aborts the
invocation in Rust and the specification treats it as a fatal upstream bug.

The crates `utils`, `risk_management`, `derivative` and the maker's `exchange`
type definitions are not part of the provided sources; functions and data taken
from them are modelled from the specification and marked as such.
-/

namespace Maker

/-- Fixed-point scale of `Decimal256`: one unit is `10^18` atomics. -/
def ONE : Nat := 10 ^ 18

/-- A `Decimal256` value, represented by its atomics (value × 10^18). -/
abbrev Dec := Nat

/-- Truncating fixed-point multiplication, as `Decimal256`'s `Mul`
(`self.atomics * other.atomics / 10^18`, floor). -/
def decMul (a b : Dec) : Dec :=
  a * b / ONE

/-- Checked fixed-point subtraction: `Decimal256`'s `Sub` panics on underflow;
`none` models the panic. -/
def decSub (a b : Dec) : Option Dec :=
  if b ≤ a then some (a - b) else none

/-- Modelled from the spec: `utils::div_dec` (§4.1 `safe_divide`): returns 0
when the denominator is exactly 0, else the truncating fixed-point quotient
(`numerator.atomics * 10^18 / denominator.atomics`, floor). -/
def div_dec (num denom : Dec) : Dec :=
  if denom = 0 then 0 else num * ONE / denom

/-- Modelled from the spec: `utils::sub_abs` (§4.1 `absolute_difference`):
`|a − b|` without underflow on the unsigned decimal type. -/
def sub_abs (a b : Dec) : Dec :=
  if b ≤ a then a - b else b - a

/-- Modelled from the spec: `utils::bp_to_dec` (§4.1 `basis_points_to_fraction`):
divides by 10,000 (here: by the decimal 10,000, i.e. `10000 * ONE` atomics). -/
def bp_to_dec (bp : Dec) : Dec :=
  div_dec bp (10000 * ONE)

/-- Modelled from the spec: order-identifying data of the maker's
`WrappedOrderInfo` (`RestingOrder`'s opaque pass-through fields plus price and
quantity, §3). -/
structure WrappedOrderInfo where
  subaccount_id : String
  fee_recipient : String
  price : Dec
  quantity : Dec
deriving DecidableEq

/-- Modelled from the spec: the maker's `WrappedDerivativeLimitOrder`
(a `RestingOrder`, §3).  The side is the integer `order_type` field exactly as
used by `split_open_orders` in the source (`1` = buy, `2` = sell); the integer
is not restricted to those two values. -/
structure WrappedDerivativeLimitOrder where
  fillable : Dec
  margin : Dec
  order_info : WrappedOrderInfo
  order_type : Nat
  trigger_price : Option Dec
  order_hash : List Nat
deriving DecidableEq

/-- Modelled from the spec: the maker's `WrappedPosition` (§3 `Position`):
direction, quantity, entry value and committed margin. -/
structure WrappedPosition where
  is_long : Bool
  quantity : Dec
  entry_price : Dec
  margin : Dec
deriving DecidableEq

/-- Modelled from the spec: the maker's `WrappedDerivativeMarket`; the core
treats the market data as opaque pass-through (§3, §6). -/
structure WrappedDerivativeMarket where
  market_id : String
deriving DecidableEq

/-- The persisted configuration, `state.rs::State`.  `subaccount_id` is the
`Addr` rendered as a string; `order_density` is the `Uint256` count of ladder
levels. -/
structure State where
  market_id : String
  subaccount_id : String
  fee_recipient : String
  is_deriv : Bool
  leverage : Dec
  order_density : Nat
  max_market_data_delay : Int
  reservation_param : Dec
  spread_param : Dec
  active_capital : Dec
  head_chg_tol : Dec
  tail_dist_from_mid : Dec
  min_tail_dist : Dec
  lp_token_address : String
deriving DecidableEq

/-- Modelled from the spec: the maker's `DerivativeOrder` as emitted by the
ladder builder (§4.8, §6: a (side, price, quantity) level). -/
structure DerivativeOrder where
  price : Dec
  quantity : Dec
  is_buy : Bool
deriving DecidableEq

/-- Modelled from the spec: the maker's `MsgBatchUpdateOrders`, with the fields
assigned by `get_action` in the source. -/
structure MsgBatchUpdateOrders where
  sender : String
  subaccount_id : String
  spot_market_ids_to_cancel_all : List String
  derivative_market_ids_to_cancel_all : List String
  spot_orders_to_cancel : List String
  derivative_orders_to_cancel : List String
  spot_orders_to_create : List DerivativeOrder
  derivative_orders_to_create : List DerivativeOrder
deriving DecidableEq

/-- Modelled from the spec: the maker's `ExchangeMsg` wrapper (only the batch
variant is emitted by `get_action`). -/
inductive ExchangeMsg where
  | batch_update_orders : MsgBatchUpdateOrders → ExchangeMsg
deriving DecidableEq

/-- The query response of `get_action`: the action plan (§3 `ActionPlan`). -/
structure WrappedGetActionResponse where
  msgs : List ExchangeMsg
deriving DecidableEq

/-- `contract.rs::reservation_price` (lines 336–346): shift the mid price by
`inv_imbal * volatility * reservation_param`, down for a long imbalance
(checked subtraction — `none` models the Rust panic on underflow), up for a
short one. -/
def reservation_price (mid_price inv_imbal volatility reservation_param : Dec)
    (imbal_is_long : Bool) : Option Dec :=
  if inv_imbal = 0 then
    some mid_price
  else if imbal_is_long then
    decSub mid_price (decMul (decMul inv_imbal volatility) reservation_param)
  else
    some (mid_price + decMul (decMul inv_imbal volatility) reservation_param)

/-- `contract.rs::new_head_prices` (lines 357–363): both heads are
`div_dec(volatility * spread_param, 2)` away from the reservation price
(the constant 2 is `Decimal::from_str("2")`, i.e. `2 * ONE` atomics). -/
def new_head_prices (volatility reservation_price spread_param : Dec) :
    Option (Dec × Dec) :=
  let dist_from_reservation_price := div_dec (decMul volatility spread_param) (2 * ONE)
  match decSub reservation_price dist_from_reservation_price with
  | none => none
  | some buy_head => some (buy_head, reservation_price + dist_from_reservation_price)

/-- `contract.rs::head_chg_is_gt_tol` (lines 373–380): `true` on an empty side;
otherwise compare the relative change of the head at index 0 with the
tolerance. -/
def head_chg_is_gt_tol (open_orders : List WrappedDerivativeLimitOrder)
    (new_head : Dec) (head_chg_tol : Dec) : Bool :=
  match open_orders with
  | [] => true
  | o :: _ =>
    decide (div_dec (sub_abs o.order_info.price new_head) o.order_info.price > head_chg_tol)

/-- Modelled from the spec: `risk_management::check_tail_dist` (§4.2
`enforce_minimum_tail_spread`): if a proposed tail is closer to its head than
`min_tail_dist` (relative to the head), replace it by
`head × (1 ∓ min_tail_dist)`; otherwise pass it through.  The unsigned
head/tail distances use natural (truncated-at-zero) subtraction. -/
def check_tail_dist (buy_head sell_head proposed_buy_tail proposed_sell_tail
    min_tail_dist : Dec) : Dec × Dec :=
  let buy_tail :=
    if div_dec (buy_head - proposed_buy_tail) buy_head < min_tail_dist then
      decMul buy_head (ONE - min_tail_dist)
    else proposed_buy_tail
  let sell_tail :=
    if div_dec (proposed_sell_tail - sell_head) sell_head < min_tail_dist then
      decMul sell_head (ONE + min_tail_dist)
    else proposed_sell_tail
  (buy_tail, sell_tail)

/-- `contract.rs::new_tail_prices` (lines 394–404): propose
`mid_price × (1 ∓ tail_dist_from_mid)` and pass the proposal through the
minimum-spread enforcement. -/
def new_tail_prices (buy_head sell_head mid_price tail_dist_from_mid
    min_tail_dist : Dec) : Dec × Dec :=
  let proposed_buy_tail := decMul mid_price (ONE - tail_dist_from_mid)
  let proposed_sell_tail := decMul mid_price (ONE + tail_dist_from_mid)
  check_tail_dist buy_head sell_head proposed_buy_tail proposed_sell_tail min_tail_dist

/-- `contract.rs::split_open_orders` (lines 413–434): collect the orders with
`order_type == 1` (buys, in input order) and `order_type == 2` (sells, in
input order), then stable-sort buys by price descending and sells by price
ascending (Rust's `sort_by` is a stable merge sort). -/
def split_open_orders (open_orders : List WrappedDerivativeLimitOrder) :
    List WrappedDerivativeLimitOrder × List WrappedDerivativeLimitOrder :=
  if open_orders.length > 0 then
    let buy_orders := open_orders.filter (fun o => o.order_type == 1)
    let sell_orders := open_orders.filter (fun o => o.order_type == 2)
    (buy_orders.mergeSort (fun a b => decide (b.order_info.price ≤ a.order_info.price)),
     sell_orders.mergeSort (fun a b => decide (a.order_info.price ≤ b.order_info.price)))
  else ([], [])

/-- Modelled from the spec: `derivative::inv_imbalance_deriv` (§4.3): the
imbalance is `position.quantity × position.entry value / total_account_value`,
clamped to [0, 1]; the direction mirrors the position; a missing position
yields imbalance 0 (direction irrelevant). -/
def inv_imbalance_deriv (position : Option WrappedPosition) (inv_val : Dec) :
    Dec × Bool :=
  match position with
  | none => (0, true)
  | some p => (min (div_dec (decMul p.quantity p.entry_price) inv_val) ONE, p.is_long)

/-- Modelled from the spec: `risk_management::get_alloc_bal_new_orders` (§4.2
`capital_for_new_orders`): `total_account_value × active_capital_fraction −
existing_position_margin`, clamped to zero (natural subtraction clamps). -/
def get_alloc_bal_new_orders (inv_val position_margin active_capital : Dec) : Dec :=
  decMul inv_val active_capital - position_margin

/-- Modelled from the spec: `derivative::create_new_orders_deriv` (§4.8
`build_ladder`): `order_density` evenly spaced levels from head to tail
inclusive (density 1 places only the head); the per-level quantity is
`allocable_value / head / density`, leverage-scaled, when increasing exposure,
or `position_quantity / density` when flattening an opposing position; a zero
basis (or zero density) yields an empty ladder.  The market data is
pass-through and unused here.  Returns the levels and the per-level quantity. -/
def create_new_orders_deriv (new_head new_tail alloc_val position_qty : Dec)
    (is_buy : Bool) (s : State) (_market : WrappedDerivativeMarket) :
    List DerivativeOrder × Dec :=
  let density := s.order_density
  if density = 0 ∨ (alloc_val = 0 ∧ position_qty = 0) then
    ([], 0)
  else
    let step := sub_abs new_head new_tail / (density - 1)
    let qty_per_order :=
      if position_qty = 0 then
        decMul (div_dec (div_dec alloc_val new_head) (density * ONE)) s.leverage
      else
        div_dec position_qty (density * ONE)
    ((List.range density).map (fun i =>
      { price := if is_buy then new_head - i * step else new_head + i * step,
        quantity := qty_per_order,
        is_buy := is_buy }),
     qty_per_order)

/-- `contract.rs::create_orders` (lines 304–325): choose the quantity/margin
basis from the position's direction relative to the side being built, allocate
capital, and delegate to the ladder builder. -/
def create_orders (new_head new_tail inv_val : Dec)
    (position : Option WrappedPosition) (is_buy : Bool) (s : State)
    (market : WrappedDerivativeMarket) : List DerivativeOrder :=
  let basis : Dec × Dec :=
    match position with
    | some p => if p.is_long == is_buy then (0, p.margin) else (p.quantity, 0)
    | none => (0, 0)
  let alloc_val_for_new_orders := get_alloc_bal_new_orders inv_val basis.2 s.active_capital
  (create_new_orders_deriv new_head new_tail alloc_val_for_new_orders basis.1 is_buy s market).1

/-- `contract.rs::get_action` (lines 224–292), after the adapter-layer
wrapping/parsing of the raw inputs (§9: the `wrap` conversions and string
parsing are a translation boundary outside the pricing core): compute the
imbalance, reservation price and heads, split the resting orders, and either
emit an empty plan (no side trips the hysteresis gate) or a single
cancel-all-and-replace batch.  `none` models a panic (underflow) aborting the
invocation. -/
def get_action (env_contract_address : String) (market : WrappedDerivativeMarket)
    (open_orders : List WrappedDerivativeLimitOrder) (inv_val : Dec)
    (position : Option WrappedPosition) (volatility mid_price : Dec)
    (state : State) : Option WrappedGetActionResponse :=
  let imbal := inv_imbalance_deriv position inv_val
  match reservation_price mid_price imbal.1 volatility state.reservation_param imbal.2 with
  | none => none
  | some r =>
    match new_head_prices volatility r state.spread_param with
    | none => none
    | some heads =>
      let new_buy_head := heads.1
      let new_sell_head := heads.2
      let sides := split_open_orders open_orders
      if head_chg_is_gt_tol sides.1 new_buy_head state.head_chg_tol
          || head_chg_is_gt_tol sides.2 new_sell_head state.head_chg_tol then
        let tails := new_tail_prices new_buy_head new_sell_head mid_price
          state.tail_dist_from_mid state.min_tail_dist
        let buy_orders_to_open :=
          create_orders new_buy_head tails.1 inv_val position true state market
        let sell_orders_to_open :=
          create_orders new_sell_head tails.2 inv_val position false state market
        some { msgs := [ExchangeMsg.batch_update_orders {
          sender := env_contract_address,
          subaccount_id := state.subaccount_id,
          spot_market_ids_to_cancel_all := [],
          derivative_market_ids_to_cancel_all := [state.market_id],
          spot_orders_to_cancel := [],
          derivative_orders_to_cancel := [],
          spot_orders_to_create := [],
          derivative_orders_to_create := buy_orders_to_open ++ sell_orders_to_open }] }
      else
        some { msgs := [] }

/-- Digit value of a character, `none` if not a decimal digit. -/
def digitVal (c : Char) : Option Nat :=
  if c.isDigit then some (c.toNat - 48) else none

/-- Parse a nonempty all-digit character list into a natural number. -/
def parseDigits (cs : List Char) : Option Nat :=
  if cs.isEmpty then none
  else cs.foldl (fun acc c =>
    match acc, digitVal c with
    | some a, some d => some (a * 10 + d)
    | _, _ => none) (some 0)

/-- Split a character list at the dots (`"1.5"` becomes `["1", "5"]`). -/
def splitDots : List Char → List (List Char)
  | [] => [[]]
  | c :: cs =>
    match splitDots cs with
    | [] => if c = '.' then [[], []] else [[c]]
    | r :: rs => if c = '.' then [] :: r :: rs else (c :: r) :: rs

/-- `Decimal256::from_str`: an integer part, optionally a dot and a fractional
part of at most 18 digits; both parts are nonempty digit strings; the atomics
must fit in 256 bits.  `none` models the parse error. -/
def decFromStr (s : String) : Option Dec :=
  match splitDots s.data with
  | [w] => (parseDigits w).bind (fun wn =>
      if wn * ONE < 2 ^ 256 then some (wn * ONE) else none)
  | [w, f] =>
    match parseDigits w, parseDigits f with
    | some wn, some fn =>
      if f.length ≤ 18 ∧ wn * ONE + fn * 10 ^ (18 - f.length) < 2 ^ 256 then
        some (wn * ONE + fn * 10 ^ (18 - f.length))
      else none
    | _, _ => none
  | _ => none

/-- `Uint256::from_str`: a nonempty digit string below `2^256`. -/
def parseUint256 (s : String) : Option Nat :=
  (parseDigits s.data).bind (fun n => if n < 2 ^ 256 then some n else none)

/-- `str::parse::<u64>`: a nonempty digit string below `2^64`. -/
def parseU64 (s : String) : Option Nat :=
  (parseDigits s.data).bind (fun n => if n < 2 ^ 64 then some n else none)

/-- `str::parse::<u8>`: a nonempty digit string below `2^8`. -/
def parseU8 (s : String) : Option Nat :=
  (parseDigits s.data).bind (fun n => if n < 2 ^ 8 then some n else none)

/-- `str::parse::<i64>`: an optional minus sign and a digit string, within the
64-bit two's-complement range. -/
def parseI64 (s : String) : Option Int :=
  match s.data with
  | '-' :: cs => (parseDigits cs).bind (fun n => if n ≤ 2 ^ 63 then some (-(n : Int)) else none)
  | cs => (parseDigits cs).bind (fun n => if n < 2 ^ 63 then some ((n : Int)) else none)

/-- `msg.rs::InstantiateMsg` as consumed by `instantiate`: all numeric
parameters arrive as strings. -/
structure InstantiateMsg where
  market_id : String
  sub_account : String
  fee_recipient : String
  is_deriv : Bool
  leverage : String
  order_density : String
  max_market_data_delay : String
  reservation_param : String
  spread_param : String
  active_capital : String
  head_chg_tol_bp : String
  tail_dist_from_mid_bp : String
  min_tail_dist_bp : String
  cw20_code_id : String
  lp_decimals : String
  lp_name : String
  lp_symbol : String
deriving DecidableEq

/-- `contract.rs::instantiate` (lines 26–71), state-construction part: every
numeric field is parsed with `.unwrap()` — a parse failure panics and aborts
the call (`none`); there is no typed-error path for parameters and no range
validation.  Basis-point fields are converted by `bp_to_dec` and the state is
persisted unconditionally.  The cw20 submessage emission is out of scope (§1),
but its two parses also panic on failure and so belong to the success
condition. -/
def instantiate (msg : InstantiateMsg) : Option State :=
  (decFromStr msg.leverage).bind (fun leverage =>
  (parseUint256 msg.order_density).bind (fun order_density =>
  (parseI64 msg.max_market_data_delay).bind (fun mmdd =>
  (decFromStr msg.reservation_param).bind (fun rp =>
  (decFromStr msg.spread_param).bind (fun sp =>
  (decFromStr msg.active_capital).bind (fun ac =>
  (decFromStr msg.head_chg_tol_bp).bind (fun hct =>
  (decFromStr msg.tail_dist_from_mid_bp).bind (fun tdm =>
  (decFromStr msg.min_tail_dist_bp).bind (fun mtd =>
  (parseU64 msg.cw20_code_id).bind (fun _code_id =>
  (parseU8 msg.lp_decimals).bind (fun _decimals =>
    some {
      market_id := msg.market_id,
      subaccount_id := msg.sub_account,
      fee_recipient := msg.fee_recipient,
      is_deriv := msg.is_deriv,
      leverage := leverage,
      order_density := order_density,
      max_market_data_delay := mmdd,
      reservation_param := rp,
      spread_param := sp,
      active_capital := ac,
      head_chg_tol := bp_to_dec hct,
      tail_dist_from_mid := bp_to_dec tdm,
      min_tail_dist := bp_to_dec mtd,
      lp_token_address := "LP-Token" })))))))))))

/-- A sample configuration used to exercise the definitions on concrete
inputs: leverage 1, three ladder levels, half the capital active, 1% head
tolerance, 5% tail distance, 1% minimum tail distance. -/
def sampleState : State :=
  { market_id := "0xmarket", subaccount_id := "0xsub", fee_recipient := "0xfee",
    is_deriv := true, leverage := ONE, order_density := 3,
    max_market_data_delay := 100, reservation_param := ONE, spread_param := ONE,
    active_capital := ONE / 2, head_chg_tol := 10 ^ 16,
    tail_dist_from_mid := 5 * 10 ^ 16, min_tail_dist := 10 ^ 16,
    lp_token_address := "LP-Token" }

/-- An instantiate message whose numeric strings all parse but whose values
violate the documented ranges: `active_capital` is the fraction 2 (outside
[0, 1]) and `order_density` is 0 (not positive). -/
def cexMsg : InstantiateMsg :=
  { market_id := "0xmkt", sub_account := "0xsub", fee_recipient := "0xfee",
    is_deriv := true, leverage := "1", order_density := "0",
    max_market_data_delay := "10", reservation_param := "0.5",
    spread_param := "0.5", active_capital := "2", head_chg_tol_bp := "100",
    tail_dist_from_mid_bp := "500", min_tail_dist_bp := "100",
    cw20_code_id := "1", lp_decimals := "6", lp_name := "LP", lp_symbol := "LP" }

/-! ## Theorems -/

/-- C2: the hysteresis gate returns `true` for an empty list of resting side
orders regardless of tolerance; for a non-empty list it takes the price of the
order at index 0 as the old head and returns `false` exactly when the relative
change `div_dec (sub_abs old_head new_head) old_head` is at most the
tolerance — equality at the boundary yields `false` (no replacement). -/
theorem head_chg_gate_empty_and_boundary (o : WrappedDerivativeLimitOrder)
    (os : List WrappedDerivativeLimitOrder) (new_head head_chg_tol : Dec) :
    head_chg_is_gt_tol [] new_head head_chg_tol = true
    ∧ (head_chg_is_gt_tol (o :: os) new_head head_chg_tol = false
        ↔ div_dec (sub_abs o.order_info.price new_head) o.order_info.price ≤ head_chg_tol) := by
  refine ⟨rfl, ?_⟩
  simp [head_chg_is_gt_tol, Nat.not_lt]

/-- C10: if the resting head at index 0 has price zero, the gate returns
`false` for every new head and every tolerance: the safe division returns 0 on
the zero denominator, and `0 > tol` fails for the unsigned tolerance. -/
theorem head_chg_gate_zero_old_head (o : WrappedDerivativeLimitOrder)
    (os : List WrappedDerivativeLimitOrder) (new_head head_chg_tol : Dec)
    (h : o.order_info.price = 0) :
    head_chg_is_gt_tol (o :: os) new_head head_chg_tol = false := by
  simp [head_chg_is_gt_tol, div_dec, h]

/-- Witness for C10: a concrete resting order with price 0 never trips the
gate, even against a far-away new head and zero tolerance. -/
theorem head_chg_gate_zero_old_head_witness :
    head_chg_is_gt_tol [⟨0, 0, ⟨"sub", "fee", 0, ONE⟩, 1, none, []⟩] (5 * ONE) 0 = false :=
  head_chg_gate_zero_old_head ⟨0, 0, ⟨"sub", "fee", 0, ONE⟩, 1, none, []⟩ [] (5 * ONE) 0 rfl

/-- C3 counterexample: with mid price 1.0 and imbalance, volatility both equal
to one atomic (10⁻¹⁸, positive) and reservation parameter 1.0 (positive), the
truncating fixed-point product is 0, so the long-side reservation price equals
the mid price instead of lying strictly below it. -/
theorem reservation_price_strictness_cex :
    (0 < (1 : Dec) ∧ 0 < (1 : Dec) ∧ 0 < ONE)
    ∧ reservation_price ONE 1 1 ONE true = some ONE := by
  constructor
  · refine ⟨Nat.one_pos, Nat.one_pos, ?_⟩
    decide
  · decide

/-- C3 amended: zero imbalance returns the mid price unchanged; a long
imbalance returns `mid_price − imbalance × volatility × reservation_param`
(when that does not underflow), a value at most the mid price and strictly
below it exactly when the truncated fixed-point product is nonzero; a short
imbalance returns `mid_price + imbalance × volatility × reservation_param`,
at least the mid price and strictly above it when the product is nonzero. -/
theorem reservation_price_amended (mid_price inv_imbal volatility reservation_param : Dec)
    (imbal_is_long : Bool) :
    (inv_imbal = 0 →
      reservation_price mid_price inv_imbal volatility reservation_param imbal_is_long
        = some mid_price)
    ∧ (inv_imbal ≠ 0 → imbal_is_long = true →
        decMul (decMul inv_imbal volatility) reservation_param ≤ mid_price →
        reservation_price mid_price inv_imbal volatility reservation_param imbal_is_long
          = some (mid_price - decMul (decMul inv_imbal volatility) reservation_param)
        ∧ mid_price - decMul (decMul inv_imbal volatility) reservation_param ≤ mid_price
        ∧ (decMul (decMul inv_imbal volatility) reservation_param ≠ 0 →
            mid_price - decMul (decMul inv_imbal volatility) reservation_param < mid_price))
    ∧ (inv_imbal ≠ 0 → imbal_is_long = false →
        reservation_price mid_price inv_imbal volatility reservation_param imbal_is_long
          = some (mid_price + decMul (decMul inv_imbal volatility) reservation_param)
        ∧ mid_price ≤ mid_price + decMul (decMul inv_imbal volatility) reservation_param
        ∧ (decMul (decMul inv_imbal volatility) reservation_param ≠ 0 →
            mid_price < mid_price + decMul (decMul inv_imbal volatility) reservation_param)) := by
  refine ⟨fun h0 => ?_, fun hne hl hle => ?_, fun hne hs => ?_⟩
  · simp [reservation_price, h0]
  · refine ⟨?_, Nat.sub_le _ _, fun hpos => ?_⟩
    · simp [reservation_price, decSub, hne, hl, hle]
    · exact Nat.sub_lt (lt_of_lt_of_le (Nat.pos_of_ne_zero hpos) hle)
        (Nat.pos_of_ne_zero hpos)
  · refine ⟨?_, Nat.le_add_right _ _, fun hpos => ?_⟩
    · simp [reservation_price, hne, hs]
    · exact Nat.lt_add_of_pos_right (Nat.pos_of_ne_zero hpos)

/-- Witness for C3 (amended): with mid price 2.0 and imbalance, volatility and
reservation parameter all 1.0, the long-side reservation price is 1.0,
strictly below the mid price. -/
theorem reservation_price_amended_witness :
    reservation_price (2 * ONE) ONE ONE ONE true
      = some (2 * ONE - decMul (decMul ONE ONE) ONE)
    ∧ 2 * ONE - decMul (decMul ONE ONE) ONE < 2 * ONE := by
  have h := (reservation_price_amended (2 * ONE) ONE ONE ONE true).2.1
    (by decide) rfl (by decide)
  exact ⟨h.1, h.2.2 (by decide)⟩

/-- C4 counterexample: with volatility and spread parameter both one atomic
(10⁻¹⁸, positive) the truncated half-spread is 0, so both heads equal the
reservation price instead of bracketing it strictly. -/
theorem new_head_prices_strictness_cex :
    (0 < (1 : Dec) ∧ 0 < (1 : Dec))
    ∧ new_head_prices 1 ONE 1 = some (ONE, ONE) := by
  constructor
  · exact ⟨Nat.one_pos, Nat.one_pos⟩
  · decide

/-- C4 amended: the heads are `reservation_price ∓ h` for the computed
half-spread `h = div_dec (volatility × spread_param, 2)` (when the buy side
does not underflow); `buy_head ≤ reservation_price ≤ sell_head` always, both
strict exactly when `h` is nonzero (positivity of volatility and spread
parameter alone does not suffice, since `h` truncates to 0 for tiny products);
both heads collapse to the reservation price when either factor is zero. -/
theorem new_head_prices_amended (volatility r spread_param : Dec) :
    (div_dec (decMul volatility spread_param) (2 * ONE) ≤ r →
      new_head_prices volatility r spread_param
        = some (r - div_dec (decMul volatility spread_param) (2 * ONE),
                r + div_dec (decMul volatility spread_param) (2 * ONE))
      ∧ r - div_dec (decMul volatility spread_param) (2 * ONE) ≤ r
      ∧ r ≤ r + div_dec (decMul volatility spread_param) (2 * ONE)
      ∧ (div_dec (decMul volatility spread_param) (2 * ONE) ≠ 0 →
          r - div_dec (decMul volatility spread_param) (2 * ONE) < r
          ∧ r < r + div_dec (decMul volatility spread_param) (2 * ONE)))
    ∧ ((volatility = 0 ∨ spread_param = 0) →
        new_head_prices volatility r spread_param = some (r, r)) := by
  constructor
  · intro hle
    refine ⟨?_, Nat.sub_le _ _, Nat.le_add_right _ _, fun hpos => ⟨?_, ?_⟩⟩
    · simp [new_head_prices, decSub, hle]
    · exact Nat.sub_lt (lt_of_lt_of_le (Nat.pos_of_ne_zero hpos) hle)
        (Nat.pos_of_ne_zero hpos)
    · exact Nat.lt_add_of_pos_right (Nat.pos_of_ne_zero hpos)
  · intro h0
    have hz : decMul volatility spread_param = 0 := by
      rcases h0 with h | h <;> simp [decMul, h]
    simp [new_head_prices, hz, div_dec, decSub]

/-- Witness for C4 (amended): with volatility 1.0, reservation price 1.0 and
spread parameter 1.0, the half-spread is 0.5 and the buy head 0.5 lies
strictly below the reservation price. -/
theorem new_head_prices_amended_witness :
    new_head_prices ONE ONE ONE
      = some (ONE - div_dec (decMul ONE ONE) (2 * ONE),
              ONE + div_dec (decMul ONE ONE) (2 * ONE))
    ∧ ONE - div_dec (decMul ONE ONE) (2 * ONE) < ONE := by
  have h := (new_head_prices_amended ONE ONE ONE).1 (by decide)
  exact ⟨h.1, (h.2.2.2 (by decide)).1⟩

/-- On the buy side the minimum-spread enforcement really guarantees the
minimum: the enforced tail `buy_head × (1 − min)` truncates downward, which
widens the buy spread. -/
lemma check_tail_dist_buy_spread (bh sh pbt pst m : Dec) (hm : m ≤ ONE) (hbh : 0 < bh) :
    m ≤ div_dec (bh - (check_tail_dist bh sh pbt pst m).1) bh := by
  have hbh' : bh ≠ 0 := Nat.pos_iff_ne_zero.mp hbh
  by_cases hc : div_dec (bh - pbt) bh < m
  · have hres : (check_tail_dist bh sh pbt pst m).1 = decMul bh (ONE - m) := by
      simp [check_tail_dist, hc]
    rw [hres, div_dec, if_neg hbh']
    set t := decMul bh (ONE - m) with ht
    have h1 : t * ONE ≤ bh * (ONE - m) := Nat.div_mul_le_self _ _
    have h3 : bh * (ONE - m) + bh * m = bh * ONE := by
      rw [← Nat.mul_add, Nat.sub_add_cancel hm]
    have key : m * bh ≤ (bh - t) * ONE := by
      rw [Nat.sub_mul]
      apply Nat.le_sub_of_add_le
      calc m * bh + t * ONE ≤ m * bh + bh * (ONE - m) := Nat.add_le_add_left h1 _
        _ = bh * (ONE - m) + bh * m := by ring
        _ = bh * ONE := h3
    exact (Nat.le_div_iff_mul_le hbh).mpr key
  · have hres : (check_tail_dist bh sh pbt pst m).1 = pbt := by
      simp [check_tail_dist, hc]
    rw [hres]
    exact Nat.le_of_not_lt hc

/-- On the sell side the enforcement can fall one atomic short: the enforced
tail `sell_head × (1 + min)` truncates downward, so for a sell head of at
least 1.0 the relative spread is at least `min` minus one atomic. -/
lemma check_tail_dist_sell_spread (bh sh pbt pst m : Dec) (hsh : ONE ≤ sh) :
    m ≤ div_dec ((check_tail_dist bh sh pbt pst m).2 - sh) sh + 1 := by
  have hone : 0 < ONE := by decide
  have hshpos : 0 < sh := lt_of_lt_of_le hone hsh
  have hsh' : sh ≠ 0 := Nat.pos_iff_ne_zero.mp hshpos
  by_cases hc : div_dec (pst - sh) sh < m
  · have hres : (check_tail_dist bh sh pbt pst m).2 = decMul sh (ONE + m) := by
      simp [check_tail_dist, hc]
    rw [hres]
    have e2 : decMul sh (ONE + m) = sh + sh * m / ONE := by
      rw [decMul, Nat.mul_add, Nat.mul_comm sh ONE, Nat.mul_add_div hone]
    rw [e2, Nat.add_sub_cancel_left, div_dec, if_neg hsh']
    set q := sh * m / ONE with hqdef
    have hq : ONE * q + sh * m % ONE = sh * m := Nat.div_add_mod (sh * m) ONE
    have hr : sh * m % ONE < ONE := Nat.mod_lt _ hone
    rcases Nat.eq_zero_or_pos m with hm0 | hmpos
    · simp [hm0]
    · rw [← Nat.sub_le_iff_le_add]
      apply (Nat.le_div_iff_mul_le hshpos).mpr
      rw [Nat.sub_mul, Nat.one_mul]
      have hms : m * sh = ONE * q + sh * m % ONE := by
        rw [Nat.mul_comm]; exact hq.symm
      rw [hms]
      have hrs : sh * m % ONE ≤ sh := le_trans (Nat.le_of_lt hr) hsh
      calc ONE * q + sh * m % ONE - sh ≤ ONE * q + sh - sh :=
            Nat.sub_le_sub_right (Nat.add_le_add_left hrs _) _
        _ = ONE * q := Nat.add_sub_cancel _ _
        _ = q * ONE := Nat.mul_comm _ _
  · have hres : (check_tail_dist bh sh pbt pst m).2 = pst := by
      simp [check_tail_dist, hc]
    rw [hres]
    exact le_trans (Nat.le_of_not_lt hc) (Nat.le_succ _)

/-- C5 counterexample: with buy_head = 1.0, sell_head = 1.0 + 10⁻¹⁸,
mid = 1.0, tail_dist_from_mid = 0 and min_tail_dist = 0.01, both proposed
tails trip the enforcement; the enforced sell tail `sell_head × 1.01`
truncates down and the resulting sell-side relative spread is
0.01 − 10⁻¹⁸ — strictly narrower than min_tail_dist, contradicting the
claimed guarantee. -/
theorem new_tail_prices_min_spread_cex :
    new_tail_prices ONE (ONE + 1) ONE 0 (10 ^ 16)
      = (ONE - 10 ^ 16, ONE + 10 ^ 16 + 1)
    ∧ div_dec ((ONE + 10 ^ 16 + 1) - (ONE + 1)) (ONE + 1) < 10 ^ 16 := by
  constructor
  · decide
  · decide

/-- C5 amended: `new_tail_prices` proposes `mid × (1 ∓ tail_dist_from_mid)`
and passes the proposals through the minimum-spread enforcement, which
replaces a too-close buy tail by `buy_head × (1 − min_tail_dist)` and a
too-close sell tail by `sell_head × (1 + min_tail_dist)` and passes compliant
proposals through unchanged.  The returned buy-side spread relative to the
buy head is never narrower than `min_tail_dist`; the sell-side relative
spread can fall short of `min_tail_dist`, but (for a sell head of at least
1.0) by at most one atomic, because the enforced sell tail truncates
downward. -/
theorem new_tail_prices_amended (bh sh mid td m : Dec)
    (hm : m ≤ ONE) (hbh : 0 < bh) (hsh : ONE ≤ sh) :
    new_tail_prices bh sh mid td m
      = check_tail_dist bh sh (decMul mid (ONE - td)) (decMul mid (ONE + td)) m
    ∧ m ≤ div_dec (bh - (new_tail_prices bh sh mid td m).1) bh
    ∧ m ≤ div_dec ((new_tail_prices bh sh mid td m).2 - sh) sh + 1
    ∧ (div_dec (bh - decMul mid (ONE - td)) bh < m →
        (new_tail_prices bh sh mid td m).1 = decMul bh (ONE - m))
    ∧ (¬ div_dec (bh - decMul mid (ONE - td)) bh < m →
        (new_tail_prices bh sh mid td m).1 = decMul mid (ONE - td))
    ∧ (div_dec (decMul mid (ONE + td) - sh) sh < m →
        (new_tail_prices bh sh mid td m).2 = decMul sh (ONE + m))
    ∧ (¬ div_dec (decMul mid (ONE + td) - sh) sh < m →
        (new_tail_prices bh sh mid td m).2 = decMul mid (ONE + td)) := by
  refine ⟨rfl, check_tail_dist_buy_spread _ _ _ _ _ hm hbh,
    check_tail_dist_sell_spread _ _ _ _ _ hsh,
    fun hc => ?_, fun hc => ?_, fun hc => ?_, fun hc => ?_⟩ <;>
    simp [new_tail_prices, check_tail_dist, hc]

/-- Witness for C5 (amended): with buy_head = 1.0, sell_head = 2.0,
mid = 1.0, tail_dist_from_mid = 0 and min_tail_dist = 0.01, both returned
relative spreads satisfy their (near-)minimum bounds. -/
theorem new_tail_prices_amended_witness :
    10 ^ 16 ≤ div_dec (ONE - (new_tail_prices ONE (2 * ONE) ONE 0 (10 ^ 16)).1) ONE
    ∧ 10 ^ 16 ≤ div_dec ((new_tail_prices ONE (2 * ONE) ONE 0 (10 ^ 16)).2 - 2 * ONE) (2 * ONE) + 1 := by
  have h := new_tail_prices_amended ONE (2 * ONE) ONE 0 (10 ^ 16)
    (by decide) (by decide) (by decide)
  exact ⟨h.2.1, h.2.2.1⟩

/-- C6: `create_orders` selects the ladder's quantity/margin basis from the
position: with no position both are zero; a position in the direction of the
side being built contributes its margin to the capital allocation (which
subtracts it, clamped at zero) and a zero quantity basis; an opposing position
contributes its quantity as the ladder basis and no margin. -/
theorem create_orders_position_basis (new_head new_tail inv_val : Dec)
    (p : WrappedPosition) (is_buy : Bool) (s : State)
    (market : WrappedDerivativeMarket) :
    create_orders new_head new_tail inv_val none is_buy s market
      = (create_new_orders_deriv new_head new_tail
          (get_alloc_bal_new_orders inv_val 0 s.active_capital) 0 is_buy s market).1
    ∧ (p.is_long = is_buy →
        create_orders new_head new_tail inv_val (some p) is_buy s market
          = (create_new_orders_deriv new_head new_tail
              (get_alloc_bal_new_orders inv_val p.margin s.active_capital) 0
              is_buy s market).1)
    ∧ (p.is_long ≠ is_buy →
        create_orders new_head new_tail inv_val (some p) is_buy s market
          = (create_new_orders_deriv new_head new_tail
              (get_alloc_bal_new_orders inv_val 0 s.active_capital) p.quantity
              is_buy s market).1)
    ∧ get_alloc_bal_new_orders inv_val p.margin s.active_capital
        = decMul inv_val s.active_capital - p.margin := by
  refine ⟨rfl, fun h => ?_, fun h => ?_, rfl⟩
  · simp [create_orders, h]
  · have hb : (p.is_long == is_buy) = false := by
      simp [h]
    simp [create_orders, hb]

/-- Witness for C6: a long position and the buy side — the margin basis is the
position's margin, the quantity basis zero. -/
theorem create_orders_position_basis_witness :
    create_orders ONE (ONE / 2) (10 * ONE) (some ⟨true, 3 * ONE, 2 * ONE, ONE⟩)
        true sampleState ⟨"0xmkt"⟩
      = (create_new_orders_deriv ONE (ONE / 2)
          (get_alloc_bal_new_orders (10 * ONE) ONE sampleState.active_capital) 0
          true sampleState ⟨"0xmkt"⟩).1 :=
  (create_orders_position_basis ONE (ONE / 2) (10 * ONE)
    ⟨true, 3 * ONE, 2 * ONE, ONE⟩ true sampleState ⟨"0xmkt"⟩).2.1 rfl

/-- A stable sort keeps the orders of any fixed price in input order: the
sorted list filtered at one price equals the input filtered at that price,
whenever equal prices compare `true` both ways under the comparator. -/
lemma mergeSort_filter_price_eq (l : List WrappedDerivativeLimitOrder)
    (le : WrappedDerivativeLimitOrder → WrappedDerivativeLimitOrder → Bool)
    (htrans : ∀ a b c, le a b → le b c → le a c)
    (htotal : ∀ a b, le a b || le b a)
    (heq : ∀ a b, a.order_info.price = b.order_info.price → le a b)
    (p : Dec) :
    (l.mergeSort le).filter (fun o => o.order_info.price == p)
      = l.filter (fun o => o.order_info.price == p) := by
  set pr : WrappedDerivativeLimitOrder → Bool := fun o => o.order_info.price == p with hpr
  have hmem : ∀ o ∈ l.filter pr, o.order_info.price = p := by
    intro o ho
    have := List.of_mem_filter ho
    simpa [hpr] using this
  have hpair : (l.filter pr).Pairwise (fun a b => le a b) :=
    List.pairwise_of_forall_mem_list (fun a ha b hb =>
      heq a b ((hmem a ha).trans (hmem b hb).symm))
  have h1 : List.Sublist (l.filter pr) (l.mergeSort le) :=
    List.sublist_mergeSort htrans htotal hpair (List.filter_sublist l)
  have h2 : List.Sublist (l.filter pr) ((l.mergeSort le).filter pr) := by
    have := List.Sublist.filter pr h1
    simpa using this
  have h3 : ((l.mergeSort le).filter pr).length = (l.filter pr).length :=
    (List.Perm.filter pr (List.mergeSort_perm l le)).length_eq
  exact (List.Sublist.eq_of_length h2 h3.symm).symm

/-- C7: `split_open_orders` returns the buy side sorted with non-increasing
prices and the sell side with non-decreasing prices (index 0 is the resting
head on each side); the sort is stable — the orders of any fixed price appear
in input order on each side — and the empty input yields two empty
sequences. -/
theorem split_open_orders_sorted_stable (l : List WrappedDerivativeLimitOrder) :
    split_open_orders [] = ([], [])
    ∧ (split_open_orders l).1.Pairwise
        (fun a b => b.order_info.price ≤ a.order_info.price)
    ∧ (split_open_orders l).2.Pairwise
        (fun a b => a.order_info.price ≤ b.order_info.price)
    ∧ (∀ p : Dec, ((split_open_orders l).1.filter (fun o => o.order_info.price == p))
        = (l.filter (fun o => o.order_type == 1)).filter (fun o => o.order_info.price == p))
    ∧ (∀ p : Dec, ((split_open_orders l).2.filter (fun o => o.order_info.price == p))
        = (l.filter (fun o => o.order_type == 2)).filter (fun o => o.order_info.price == p)) := by
  have htrans1 : ∀ a b c : WrappedDerivativeLimitOrder,
      decide (b.order_info.price ≤ a.order_info.price) →
      decide (c.order_info.price ≤ b.order_info.price) →
      decide (c.order_info.price ≤ a.order_info.price) := by
    intro a b c h1 h2
    simp only [decide_eq_true_eq] at *
    exact le_trans h2 h1
  have htotal1 : ∀ a b : WrappedDerivativeLimitOrder,
      decide (b.order_info.price ≤ a.order_info.price)
        || decide (a.order_info.price ≤ b.order_info.price) := by
    intro a b
    simpa using Nat.le_total b.order_info.price a.order_info.price
  have htrans2 : ∀ a b c : WrappedDerivativeLimitOrder,
      decide (a.order_info.price ≤ b.order_info.price) →
      decide (b.order_info.price ≤ c.order_info.price) →
      decide (a.order_info.price ≤ c.order_info.price) := by
    intro a b c h1 h2
    simp only [decide_eq_true_eq] at *
    exact le_trans h1 h2
  have htotal2 : ∀ a b : WrappedDerivativeLimitOrder,
      decide (a.order_info.price ≤ b.order_info.price)
        || decide (b.order_info.price ≤ a.order_info.price) := by
    intro a b
    simpa using Nat.le_total a.order_info.price b.order_info.price
  cases l with
  | nil => refine ⟨rfl, ?_, ?_, fun p => rfl, fun p => rfl⟩ <;>
      simp [split_open_orders]
  | cons a l' =>
    have hsplit : split_open_orders (a :: l')
        = (((a :: l').filter (fun o => o.order_type == 1)).mergeSort
            (fun x y => decide (y.order_info.price ≤ x.order_info.price)),
           ((a :: l').filter (fun o => o.order_type == 2)).mergeSort
            (fun x y => decide (x.order_info.price ≤ y.order_info.price))) := by
      simp [split_open_orders]
    refine ⟨rfl, ?_, ?_, fun p => ?_, fun p => ?_⟩
    · rw [hsplit]
      exact (List.sorted_mergeSort htrans1 htotal1 _).imp
        (fun h => by simpa using h)
    · rw [hsplit]
      exact (List.sorted_mergeSort htrans2 htotal2 _).imp
        (fun h => by simpa using h)
    · rw [hsplit]
      exact mergeSort_filter_price_eq _ _ htrans1 htotal1
        (fun x y h => by simp [h]) p
    · rw [hsplit]
      exact mergeSort_filter_price_eq _ _ htrans2 htotal2
        (fun x y h => by simp [h]) p

/-- C8 counterexample: `split_open_orders` tests the integer order type
against 1 (buy) and 2 (sell) separately; a resting order with any other order
type — here 0 — is silently dropped and appears in neither returned
sequence. -/
theorem split_open_orders_drops_cex :
    split_open_orders [⟨0, 0, ⟨"sub", "fee", ONE, ONE⟩, 0, none, []⟩] = ([], []) := by
  simp [split_open_orders]

/-- C8 amended: `split_open_orders` partitions only the orders whose integer
order type is 1 (buy) or 2 (sell): the buy output is a permutation of the
input's type-1 orders and the sell output a permutation of the input's type-2
orders (so those orders appear exactly once, without duplication); orders of
any other type appear in neither output. -/
theorem split_open_orders_partition (l : List WrappedDerivativeLimitOrder) :
    (split_open_orders l).1.Perm (l.filter (fun o => o.order_type == 1))
    ∧ (split_open_orders l).2.Perm (l.filter (fun o => o.order_type == 2)) := by
  cases l with
  | nil => exact ⟨List.Perm.refl _, List.Perm.refl _⟩
  | cons a l' =>
    constructor
    · simpa [split_open_orders] using
        List.mergeSort_perm ((a :: l').filter (fun o => o.order_type == 1)) _
    · simpa [split_open_orders] using
        List.mergeSort_perm ((a :: l').filter (fun o => o.order_type == 2)) _

/-- C9 counterexample: `instantiate` accepts and persists an active-capital
fraction of 2 (outside [0, 1]) and an order density of 0 (not positive)
without any error — no range validation happens at parameter-load time. -/
theorem instantiate_no_validation_cex :
    instantiate cexMsg
      = some ⟨"0xmkt", "0xsub", "0xfee", true, ONE, 0, 10, 5 * 10 ^ 17,
          5 * 10 ^ 17, 2 * ONE, 10 ^ 16, 5 * 10 ^ 16, 10 ^ 16, "LP-Token"⟩
    ∧ ONE < 2 * ONE := by
  constructor
  · decide
  · decide

/-- C9 amended: parameter loading performs no range validation and surfaces
no typed error for parameters: `instantiate` succeeds — persisting whatever
values were parsed — exactly when every numeric string parses; a malformed
numeric string aborts the call through a panic (`unwrap`), modelled by
`none`, rather than a typed error result. -/
theorem instantiate_parse_only (msg : InstantiateMsg) :
    (instantiate msg).isSome
      ↔ ((decFromStr msg.leverage).isSome ∧ (parseUint256 msg.order_density).isSome
        ∧ (parseI64 msg.max_market_data_delay).isSome
        ∧ (decFromStr msg.reservation_param).isSome
        ∧ (decFromStr msg.spread_param).isSome
        ∧ (decFromStr msg.active_capital).isSome
        ∧ (decFromStr msg.head_chg_tol_bp).isSome
        ∧ (decFromStr msg.tail_dist_from_mid_bp).isSome
        ∧ (decFromStr msg.min_tail_dist_bp).isSome
        ∧ (parseU64 msg.cw20_code_id).isSome
        ∧ (parseU8 msg.lp_decimals).isSome) := by
  rcases h1 : decFromStr msg.leverage with _ | lev
  · simp [instantiate, h1]
  rcases h2 : parseUint256 msg.order_density with _ | od
  · simp [instantiate, h1, h2]
  rcases h3 : parseI64 msg.max_market_data_delay with _ | mmdd
  · simp [instantiate, h1, h2, h3]
  rcases h4 : decFromStr msg.reservation_param with _ | rp
  · simp [instantiate, h1, h2, h3, h4]
  rcases h5 : decFromStr msg.spread_param with _ | sp
  · simp [instantiate, h1, h2, h3, h4, h5]
  rcases h6 : decFromStr msg.active_capital with _ | ac
  · simp [instantiate, h1, h2, h3, h4, h5, h6]
  rcases h7 : decFromStr msg.head_chg_tol_bp with _ | hct
  · simp [instantiate, h1, h2, h3, h4, h5, h6, h7]
  rcases h8 : decFromStr msg.tail_dist_from_mid_bp with _ | tdm
  · simp [instantiate, h1, h2, h3, h4, h5, h6, h7, h8]
  rcases h9 : decFromStr msg.min_tail_dist_bp with _ | mtd
  · simp [instantiate, h1, h2, h3, h4, h5, h6, h7, h8, h9]
  rcases h10 : parseU64 msg.cw20_code_id with _ | cid
  · simp [instantiate, h1, h2, h3, h4, h5, h6, h7, h8, h9, h10]
  rcases h11 : parseU8 msg.lp_decimals with _ | dec8
  · simp [instantiate, h1, h2, h3, h4, h5, h6, h7, h8, h9, h10, h11]
  simp [instantiate, h1, h2, h3, h4, h5, h6, h7, h8, h9, h10, h11]

/-- C1: every completed invocation of `get_action` produces one of exactly
two plan shapes.  If neither the buy side nor the sell side trips the
hysteresis gate, the plan is empty (no messages, resting orders untouched).
If either side trips, the plan is a single batch that cancels all resting
orders on the configured market and creates the freshly built ladders for
both sides together, even when only one side tripped. -/
theorem get_action_two_shapes (addr : String) (market : WrappedDerivativeMarket)
    (open_orders : List WrappedDerivativeLimitOrder) (inv_val : Dec)
    (position : Option WrappedPosition) (volatility mid_price : Dec) (s : State)
    (resp : WrappedGetActionResponse)
    (h : get_action addr market open_orders inv_val position volatility mid_price s
          = some resp) :
    ∃ r heads,
      reservation_price mid_price (inv_imbalance_deriv position inv_val).1 volatility
          s.reservation_param (inv_imbalance_deriv position inv_val).2 = some r
      ∧ new_head_prices volatility r s.spread_param = some heads
      ∧ ((head_chg_is_gt_tol (split_open_orders open_orders).1 heads.1 s.head_chg_tol = false
          ∧ head_chg_is_gt_tol (split_open_orders open_orders).2 heads.2 s.head_chg_tol = false
          ∧ resp.msgs = [])
        ∨ ((head_chg_is_gt_tol (split_open_orders open_orders).1 heads.1 s.head_chg_tol = true
            ∨ head_chg_is_gt_tol (split_open_orders open_orders).2 heads.2 s.head_chg_tol = true)
          ∧ resp.msgs = [ExchangeMsg.batch_update_orders {
              sender := addr,
              subaccount_id := s.subaccount_id,
              spot_market_ids_to_cancel_all := [],
              derivative_market_ids_to_cancel_all := [s.market_id],
              spot_orders_to_cancel := [],
              derivative_orders_to_cancel := [],
              spot_orders_to_create := [],
              derivative_orders_to_create :=
                create_orders heads.1 (new_tail_prices heads.1 heads.2 mid_price
                    s.tail_dist_from_mid s.min_tail_dist).1 inv_val position true s market
                ++ create_orders heads.2 (new_tail_prices heads.1 heads.2 mid_price
                    s.tail_dist_from_mid s.min_tail_dist).2 inv_val position false s market }])) := by
  simp only [get_action] at h
  split at h
  · exact absurd h (by simp)
  · rename_i r hr
    split at h
    · exact absurd h (by simp)
    · rename_i heads hh
      refine ⟨r, heads, hr, hh, ?_⟩
      split at h
      · rename_i hg
        right
        refine ⟨by simpa using hg, ?_⟩
        rw [← Option.some.inj h]
      · rename_i hg
        left
        simp only [Bool.or_eq_true, not_or, Bool.not_eq_true] at hg
        exact ⟨hg.1, hg.2, by rw [← Option.some.inj h]⟩

/-- Witness for C1: a concrete invocation (no resting orders, flat position,
zero volatility) that returns a single cancel-all-and-replace batch. -/
theorem get_action_two_shapes_witness :
    ∃ r heads,
      reservation_price ONE (inv_imbalance_deriv none 0).1 0
          sampleState.reservation_param (inv_imbalance_deriv none 0).2 = some r
      ∧ new_head_prices 0 r sampleState.spread_param = some heads
      ∧ ((head_chg_is_gt_tol (split_open_orders []).1 heads.1 sampleState.head_chg_tol = false
          ∧ head_chg_is_gt_tol (split_open_orders []).2 heads.2 sampleState.head_chg_tol = false
          ∧ (WrappedGetActionResponse.mk [ExchangeMsg.batch_update_orders
              ⟨"creator", "0xsub", [], ["0xmarket"], [], [], [], []⟩]).msgs = [])
        ∨ ((head_chg_is_gt_tol (split_open_orders []).1 heads.1 sampleState.head_chg_tol = true
            ∨ head_chg_is_gt_tol (split_open_orders []).2 heads.2 sampleState.head_chg_tol = true)
          ∧ (WrappedGetActionResponse.mk [ExchangeMsg.batch_update_orders
              ⟨"creator", "0xsub", [], ["0xmarket"], [], [], [], []⟩]).msgs
            = [ExchangeMsg.batch_update_orders {
              sender := "creator",
              subaccount_id := sampleState.subaccount_id,
              spot_market_ids_to_cancel_all := [],
              derivative_market_ids_to_cancel_all := [sampleState.market_id],
              spot_orders_to_cancel := [],
              derivative_orders_to_cancel := [],
              spot_orders_to_create := [],
              derivative_orders_to_create :=
                create_orders heads.1 (new_tail_prices heads.1 heads.2 ONE
                    sampleState.tail_dist_from_mid sampleState.min_tail_dist).1 0 none
                    true sampleState ⟨"0xmkt"⟩
                ++ create_orders heads.2 (new_tail_prices heads.1 heads.2 ONE
                    sampleState.tail_dist_from_mid sampleState.min_tail_dist).2 0 none
                    false sampleState ⟨"0xmkt"⟩ }])) :=
  get_action_two_shapes "creator" ⟨"0xmkt"⟩ [] 0 none 0 ONE sampleState
    ⟨[ExchangeMsg.batch_update_orders ⟨"creator", "0xsub", [], ["0xmarket"], [], [], [], []⟩]⟩
    (by decide)

end Maker
